import Mathlib

/-!
Shallow embedding of the advancedTweetSearch capability handler of the
Openserv Twitter Advanced Search agent (the cursor-aware handler in the
repository source). JavaScript strings are modelled as Lean strings over
character lists, JavaScript truthiness of optional strings, booleans and
numbers is made explicit, and the single outbound HTTP call is modelled
by an explicit outcome value. The handler body and its catch block are
translated statement by statement from the source.
-/

namespace AdvancedTweetSearch

/-- JavaScript truthiness disjunction on an optional string: s or d is d
when s is undefined or the empty string, and s otherwise. -/
def jsOrStr (o : Option String) (d : String) : String :=
  match o with
  | some s => if s.isEmpty then d else s
  | none => d

/-- JavaScript truthiness of an optional string: truthy iff present and
non-empty. -/
def strTruthy (o : Option String) : Bool :=
  match o with
  | some s => !s.isEmpty
  | none => false

/-- JavaScript truthiness of an optional boolean field. -/
def boolTruthy (o : Option Bool) : Bool :=
  match o with
  | some b => b
  | none => false

/-- JavaScript n or d on an optional number: d when the field is
undefined or zero, n otherwise. -/
def natOr (o : Option Nat) (d : Nat) : Nat :=
  match o with
  | some n => if n = 0 then d else n
  | none => d

/-- JavaScript template interpolation of a possibly undefined string
field: an absent field prints as the literal text undefined. -/
def interpOpt (o : Option String) : String :=
  match o with
  | some s => s
  | none => "undefined"

/-- JavaScript substring from index zero: the first n characters. -/
def jsSubstring (s : String) (n : Nat) : String :=
  String.mk (s.data.take n)

/-- Author object of a raw tweet; the userName field may be absent. -/
structure RawAuthor where
  userName : Option String

/-- Raw tweet object from the provider JSON; every field may be absent. -/
structure RawTweet where
  id : Option String
  text : Option String
  createdAt : Option String
  url : Option String
  author : Option RawAuthor
  likeCount : Option Nat
  retweetCount : Option Nat
  replyCount : Option Nat
  viewCount : Option Nat

/-- Provider response body. The tweets field is none when it is missing
or not an array, mirroring the Array.isArray check in the source; the
message and msg fields are the error message fields the source probes. -/
structure ResponseData where
  tweets : Option (List RawTweet)
  has_next_page : Option Bool
  next_cursor : Option String
  message : Option String
  msg : Option String

/-- Body attached to a failed HTTP response, probed for msg then message. -/
structure ErrData where
  msg : Option String
  message : Option String

/-- The response object carried by an axios error, when any. -/
structure ErrResponse where
  status : Option Nat
  data : Option ErrData

/-- Outcome of the outbound axios.get call: a 2xx response with some JSON
body (possibly null), an axios error (HTTP error response or a
connection-level axios failure with no response), or a non-axios error. -/
inductive CallOutcome where
  | ok (data : Option ResponseData)
  | axiosErr (response : Option ErrResponse)
  | otherErr (message : String)

/-- The runtime error raised inside the try block, caught by the catch. -/
inductive JsError where
  | axiosError (response : Option ErrResponse)
  | other (message : String)

/-- Query parameters of the outbound GET request; the cursor parameter is
cursor or the empty string, as in the source. -/
def requestParams (query queryType : String) (cursor : Option String) :
    List (String × String) :=
  [("query", query), ("queryType", queryType), ("cursor", jsOrStr cursor "")]

/-- authorUsername: tweet.author optional-chained to userName, with the
Unknown User fallback. -/
def authorName (t : RawTweet) : String :=
  jsOrStr (t.author.bind RawAuthor.userName) "Unknown User"

/-- tweetTextContent: tweet.text or the empty string. -/
def tweetTextContent (t : RawTweet) : String :=
  jsOrStr t.text ""

/-- tweetText: the content truncated to 250 characters, with a trailing
ellipsis exactly when the content is longer than 250 characters. -/
def tweetText (t : RawTweet) : String :=
  jsSubstring (tweetTextContent t) 250 ++
    (if (tweetTextContent t).length > 250 then "..." else "")

/-- One rendered tweet block, with the one-based index. -/
def tweetBlock (index : Nat) (t : RawTweet) : String :=
  toString (index + 1) ++ ". **Author:** @" ++ authorName t ++ "\n" ++
  "   **ID:** " ++ interpOpt t.id ++ "\n" ++
  "   **Text:** " ++ tweetText t ++ "\n" ++
  "   **Created:** " ++ interpOpt t.createdAt ++ "\n" ++
  "   **Link:** " ++ interpOpt t.url ++ "\n" ++
  "   **Stats:** Likes: " ++ toString (natOr t.likeCount 0) ++
  ", Retweets: " ++ toString (natOr t.retweetCount 0) ++
  ", Replies: " ++ toString (natOr t.replyCount 0) ++
  ", Views: " ++ toString (natOr t.viewCount 0) ++ "\n\n"

/-- The forEach loop over the tweets array, accumulating blocks in order. -/
def renderTweets : Nat → List RawTweet → String
  | _, [] => ""
  | i, t :: ts => tweetBlock i t ++ renderTweets (i + 1) ts

/-- The report header: first-page wording without a truthy cursor, and the
cursor echoed truncated to ten characters with one. -/
def header (query queryType : String) (cursor : Option String) : String :=
  if strTruthy cursor then
    "**Search Results for Query \"" ++ query ++ "\" (Type: " ++ queryType ++
      ") - Page corresponding to cursor \"" ++
      jsSubstring (jsOrStr cursor "") 10 ++ "...\":**\n\n"
  else
    "**Search Results for Query \"" ++ query ++ "\" (Type: " ++ queryType ++
      ") - First Page:**\n\n"

/-- Pagination footer of a non-empty report: the next-cursor note when
has_next_page and next_cursor are truthy, else the end-of-results note. -/
def paginationFooter (hnp : Option Bool) (nc : Option String) : String :=
  if boolTruthy hnp && strTruthy nc then
    "\n*Note: More results available. Use this cursor for the next page: " ++
      jsOrStr nc "" ++ "*\n"
  else
    "\n*Note: End of results.*\n"

/-- Trailing note of an empty-page report. -/
def emptyPageNote (hnp : Option Bool) (nc : Option String) : String :=
  if boolTruthy hnp && strTruthy nc then
    "\n*Note: The API indicates more results might exist. Use this cursor for the next page: " ++
      jsOrStr nc "" ++ "*"
  else
    "\n*Note: End of results.*"

/-- Message of an empty-page report: distinct wording with and without a
truthy cursor. -/
def emptyPageMessage (query : String) (cursor : Option String) : String :=
  if strTruthy cursor then
    "No more tweets found on this page for the query: \"" ++ query ++ "\"."
  else
    "No tweets found matching the search query: \"" ++ query ++ "\"."

/-- Error message of the shape check: responseData message, else msg, else
the generic phrase. -/
def shapeErrorMessage (data : Option ResponseData) : String :=
  jsOrStr (data.bind ResponseData.message)
    (jsOrStr (data.bind ResponseData.msg)
      "Unknown API error or invalid data structure (missing tweets array).")

/-- The uncapped rendered report of a non-empty page. -/
def renderedReport (query queryType : String) (cursor : Option String)
    (tweets : List RawTweet) (hnp : Option Bool) (nc : Option String) :
    String :=
  header query queryType cursor ++ renderTweets 0 tweets ++
    paginationFooter hnp nc

/-- The hard output length ceiling. -/
def maxTotalOutputLength : Nat := 25000

/-- The fixed suffix appended after truncation at the ceiling. -/
def truncationSuffix : String :=
  "\n... [Total output truncated due to length limit]"

/-- The safeguard at the end of the success path: truncate to the ceiling
and append the notice when the output exceeds the ceiling. -/
def capOutput (s : String) : String :=
  if s.length > maxTotalOutputLength then
    jsSubstring s maxTotalOutputLength ++ truncationSuffix
  else s

/-- The success path of the handler after the axios call resolves. -/
def handleSuccess (query queryType : String) (cursor : Option String)
    (data : Option ResponseData) : String :=
  match data with
  | none =>
    "Error: Failed to fetch tweets. API Response: " ++ shapeErrorMessage none
  | some d =>
    match d.tweets with
    | none =>
      "Error: Failed to fetch tweets. API Response: " ++
        shapeErrorMessage (some d)
    | some tweets =>
      if tweets.isEmpty then
        emptyPageMessage query cursor ++
          emptyPageNote d.has_next_page d.next_cursor
      else
        capOutput (renderedReport query queryType cursor tweets
          d.has_next_page d.next_cursor)

/-- apiMessage of the catch block: error response data msg, else message,
else the generic phrase. -/
def apiMessage (data : Option ErrData) : String :=
  jsOrStr (data.bind ErrData.msg)
    (jsOrStr (data.bind ErrData.message) "No specific message from API.")

/-- Status interpolated in the generic branch: status or the text N/A. -/
def jsStatusOrNA (o : Option Nat) : String :=
  match o with
  | some n => if n = 0 then "N/A" else toString n
  | none => "N/A"

/-- Status interpolated directly in a template. -/
def statusInterp (o : Option Nat) : String :=
  match o with
  | some n => toString n
  | none => "undefined"

/-- The 400 branch: the potential reason names the cursor exactly when the
cursor argument is truthy. -/
def badRequestMessage (query : String) (cursor : Option String)
    (apiMsg : String) : String :=
  "Error: Bad request. " ++
  (if strTruthy cursor then
    "The search query \"" ++ query ++ "\" or the provided cursor might be invalid."
  else
    "The search query \"" ++ query ++ "\" might be invalid or improperly formatted.") ++
  " Please check the query syntax and cursor value. (Status: 400, Message: " ++
  apiMsg ++ ")"

/-- The axios-error arm of the catch block: dispatch on the optional
status of the optional error response. -/
def handleAxiosError (query : String) (cursor : Option String)
    (resp : Option ErrResponse) : String :=
  let status := resp.bind ErrResponse.status
  let apiMsg := apiMessage (resp.bind ErrResponse.data)
  if status = some 401 ∨ status = some 403 then
    "Error: Authentication failed. Please check if the TWITTER_API_IO_KEY is correct and valid. (Status: " ++
      statusInterp status ++ ")"
  else if status = some 400 then
    badRequestMessage query cursor apiMsg
  else if status = some 404 then
    "Error: API endpoint not found or unavailable. Please check the API configuration. (Status: 404)"
  else if status = some 429 then
    "Error: API rate limit exceeded. Please wait and try again later. (Status: " ++
      statusInterp status ++ ")"
  else
    "Error: An API error occurred. Status: " ++ jsStatusOrNA status ++
      ", Message: " ++ apiMsg

/-- The catch block: axios errors go through the status dispatch, any
other error to the unexpected-error template. -/
def catchHandler (query : String) (cursor : Option String) :
    JsError → String
  | .axiosError resp => handleAxiosError query cursor resp
  | .other m =>
    "Error: An unexpected error occurred while searching tweets: " ++ m

/-- The try block body: the awaited axios call either resolves, making the
rest of the body run, or raises the corresponding runtime error. -/
def tryBody (query queryType : String) (cursor : Option String)
    (outcome : CallOutcome) : Except JsError String :=
  match outcome with
  | .ok data => .ok (handleSuccess query queryType cursor data)
  | .axiosErr resp => .error (.axiosError resp)
  | .otherErr m => .error (.other m)

/-- try followed by catch: a raised error is handed to the handler and its
string result returned normally. -/
def tryCatch (body : Except JsError String) (handler : JsError → String) :
    Except JsError String :=
  match body with
  | .ok s => .ok s
  | .error e => .ok (handler e)

/-- The whole run function at the exception level: what the hosting
framework observes when invoking the capability. -/
def handle (query queryType : String) (cursor : Option String)
    (outcome : CallOutcome) : Except JsError String :=
  tryCatch (tryBody query queryType cursor outcome)
    (catchHandler query cursor)

/-- The string returned by the run function. -/
def run (query queryType : String) (cursor : Option String)
    (outcome : CallOutcome) : String :=
  match tryBody query queryType cursor outcome with
  | .ok s => s
  | .error e => catchHandler query cursor e

/-- Boolean check that the pattern list occurs at the head. -/
def headMatches : List Char → List Char → Bool
  | [], _ => true
  | _ :: _, [] => false
  | a :: as, b :: bs => a == b && headMatches as bs

/-- Boolean check that the pattern list occurs somewhere in the list. -/
def occursIn (pat : List Char) : List Char → Bool
  | [] => headMatches pat []
  | b :: bs => headMatches pat (b :: bs) || occursIn pat bs

/-- Boolean substring occurrence on strings. -/
def strOccurs (pat s : String) : Bool :=
  occursIn pat.data s.data

/-- Concrete fixture: a tweet whose text contains the end-of-results
marker verbatim. -/
def markerTweet : RawTweet :=
  ⟨some "124", some "*Note: End of results.*", none, none, none, none, none,
    none, none⟩

/-- Concrete fixture: a one-tweet page that still has a next page and a
non-empty next cursor. -/
def markerResponse : ResponseData :=
  ⟨some [markerTweet], some true, some "CUR", none, none⟩

/-- Concrete fixture: a tweet with id, text, author and like count
present, but createdAt and url absent. -/
def bareTweet : RawTweet :=
  ⟨some "1", some "hi", none, none, some ⟨some "alice"⟩, some 1, none, none,
    none⟩

/-- Concrete fixture: a last page carrying only the bare tweet. -/
def bareResponse : ResponseData :=
  ⟨some [bareTweet], some false, none, none, none⟩

/-- Concrete fixture: a tweet where every optional sub-field other than
id and text is absent. -/
def plainTweet : RawTweet :=
  ⟨some "1", some "hi", none, none, none, none, none, none, none⟩

/-- Concrete fixture: a tweet whose text field is absent. -/
def plainTweet2 : RawTweet :=
  ⟨some "2", none, none, none, none, none, none, none, none⟩

/-! Helper lemmas about the JavaScript-style string operations. -/

set_option maxRecDepth 16384

lemma jsOrStr_some_self (s : String) : jsOrStr (some s) "" = s := by
  show (if s.isEmpty then "" else s) = s
  by_cases h : s.isEmpty
  · rw [if_pos h, (String.isEmpty_iff s).mp h]
  · exact if_neg h

lemma jsSubstring_of_le (s : String) (n : Nat) (h : s.length ≤ n) :
    jsSubstring s n = s := by
  obtain ⟨l⟩ := s
  show String.mk (l.take n) = String.mk l
  rw [List.take_of_length_le h]

/-- C1: for every request and every outcome of the outbound HTTP call, the
handler returns a string result through the normal return path; no
execution path propagates an exception to the hosting framework. -/
theorem C1_no_exception_propagates (q m : String) (c : Option String)
    (o : CallOutcome) : ∃ s : String, handle q m c o = Except.ok s := by
  cases o with
  | ok data => exact ⟨_, rfl⟩
  | axiosErr r => exact ⟨_, rfl⟩
  | otherErr em => exact ⟨_, rfl⟩

/-- C5: when the caller omits the cursor, the outbound request carries a
cursor query parameter whose value is the empty string, and for every
cursor argument the cursor parameter is present in the request. -/
theorem C5_cursor_param_always_present (q m : String) :
    requestParams q m none = [("query", q), ("queryType", m), ("cursor", "")] ∧
    ∀ c : Option String, ("cursor", jsOrStr c "") ∈ requestParams q m c := by
  refine ⟨rfl, ?_⟩
  intro c
  simp [requestParams]

/-- C7: the rendered text of a tweet whose text field is present equals
the first 250 characters followed by an ellipsis when the text is longer
than 250 characters, and equals the text verbatim otherwise. -/
theorem C7_tweet_text_truncation (t : RawTweet) (s : String)
    (h : t.text = some s) :
    (s.length > 250 → tweetText t = jsSubstring s 250 ++ "...") ∧
    (s.length ≤ 250 → tweetText t = s) := by
  have hc : tweetTextContent t = s := by
    rw [tweetTextContent, h]
    exact jsOrStr_some_self s
  constructor
  · intro hl
    rw [tweetText, hc, if_pos hl]
  · intro hl
    rw [tweetText, hc, if_neg (by omega), jsSubstring_of_le s 250 hl]
    exact String.append_empty _

/-- Witness for C7 at a concrete 251-character text and at the theorem
itself for the short case. -/
theorem C7_tweet_text_truncation_witness :
    tweetText ⟨none, some (String.mk (List.replicate 251 'a')), none, none,
      none, none, none, none, none⟩ =
      jsSubstring (String.mk (List.replicate 251 'a')) 250 ++ "..." :=
  (C7_tweet_text_truncation _ _ rfl).1 (by decide)

/-- C8: a 2xx response whose body is null or lacks a tweets array yields
exactly the shape-check error string, which embeds the message field,
else the msg field, else the generic phrase; no tweets are rendered. -/
theorem C8_shape_check_error (q m : String) (c : Option String)
    (hnp : Option Bool) (nc fMessage fMsg : Option String) :
    run q m c (.ok none) =
      "Error: Failed to fetch tweets. API Response: Unknown API error or invalid data structure (missing tweets array)." ∧
    run q m c (.ok (some ⟨none, hnp, nc, fMessage, fMsg⟩)) =
      "Error: Failed to fetch tweets. API Response: " ++
        jsOrStr fMessage (jsOrStr fMsg
          "Unknown API error or invalid data structure (missing tweets array).") ∧
    (∀ s : String, fMessage = some s → s.isEmpty = false →
      jsOrStr fMessage (jsOrStr fMsg
        "Unknown API error or invalid data structure (missing tweets array).") = s) ∧
    (fMessage = none → fMsg = none →
      jsOrStr fMessage (jsOrStr fMsg
        "Unknown API error or invalid data structure (missing tweets array).") =
        "Unknown API error or invalid data structure (missing tweets array).") := by
  refine ⟨rfl, ?_, ?_, ?_⟩
  · simp [run, tryBody, handleSuccess, shapeErrorMessage]
  · intro s hs hke
    subst hs
    simp [jsOrStr, hke]
  · intro h1 h2
    subst h1
    subst h2
    rfl

/-- Witness for C8 at a concrete response carrying a message field. -/
theorem C8_shape_check_error_witness :
    run "q" "Latest" none (.ok (some ⟨none, none, none, some "boom", none⟩)) =
      "Error: Failed to fetch tweets. API Response: boom" := by
  have h := C8_shape_check_error "q" "Latest" none none none (some "boom") none
  rw [h.2.1, h.2.2.1 "boom" rfl rfl]
  decide

lemma run_axiosErr (q m : String) (c : Option String) (r : Option ErrResponse) :
    run q m c (.axiosErr r) = handleAxiosError q c r := rfl

lemma emptyPageMessage_distinct (q2 : String) (c2 : Option String)
    (ht : strTruthy c2 = true) :
    emptyPageMessage q2 c2 ≠ emptyPageMessage q2 none := by
  intro heq
  have hlen := congrArg String.length heq
  simp only [emptyPageMessage] at hlen
  rw [if_pos ht, if_neg (by simp [strTruthy])] at hlen
  rw [String.length_append, String.length_append, String.length_append,
    String.length_append] at hlen
  have e1 : ("No more tweets found on this page for the query: \"" : String).length = 50 := rfl
  have e2 : ("No tweets found matching the search query: \"" : String).length = 44 := rfl
  have e3 : ("\"." : String).length = 2 := rfl
  rw [e1, e2, e3] at hlen
  omega

/-- C6: on an empty tweets array the handler returns the no-results
wording without a truthy cursor and the end-of-this-page wording with
one, the two wordings are distinct for every query, and the report ends
with the trailing note reflecting the pagination fields. -/
theorem C6_empty_page_wording (q m : String) (c : Option String)
    (hnp : Option Bool) (nc fMessage fMsg : Option String) :
    run q m c (.ok (some ⟨some [], hnp, nc, fMessage, fMsg⟩)) =
      emptyPageMessage q c ++ emptyPageNote hnp nc ∧
    (strTruthy c = true → emptyPageMessage q c =
      "No more tweets found on this page for the query: \"" ++ q ++ "\".") ∧
    (strTruthy c = false → emptyPageMessage q c =
      "No tweets found matching the search query: \"" ++ q ++ "\".") ∧
    (∀ q2 c2, strTruthy c2 = true →
      emptyPageMessage q2 c2 ≠ emptyPageMessage q2 none) ∧
    ((boolTruthy hnp && strTruthy nc) = true → emptyPageNote hnp nc =
      "\n*Note: The API indicates more results might exist. Use this cursor for the next page: " ++
        jsOrStr nc "" ++ "*") ∧
    ((boolTruthy hnp && strTruthy nc) = false → emptyPageNote hnp nc =
      "\n*Note: End of results.*") := by
  refine ⟨rfl, ?_, ?_, emptyPageMessage_distinct, ?_, ?_⟩
  · intro h
    simp only [emptyPageMessage]
    rw [if_pos h]
  · intro h
    simp only [emptyPageMessage]
    rw [if_neg (by simp [h])]
  · intro h
    simp only [emptyPageNote]
    rw [if_pos h]
  · intro h
    simp only [emptyPageNote]
    rw [if_neg (by simp [h])]

/-- Witness for C6: an empty page reached with a cursor reports the
end-of-this-page wording and the end-of-results trailing note. -/
theorem C6_empty_page_wording_witness :
    run "q" "Latest" (some "cur") (.ok (some ⟨some [], some false, none, none, none⟩)) =
      "No more tweets found on this page for the query: \"q\".\n*Note: End of results.*" := by
  have h := C6_empty_page_wording "q" "Latest" (some "cur") (some false) none none none
  rw [h.1, h.2.1 rfl, h.2.2.2.2.2 rfl]
  decide

/-- C4: the catch block selects the error template by HTTP status: 401
and 403 give the authentication template naming the credential, 400 the
bad-request template naming the cursor exactly when the cursor is
truthy, 404 the endpoint template, 429 the rate-limit template, any
other status the generic template with the status (or N/A) and the
provider message field probed msg then message, and a non-axios failure
the unexpected-error template with the failure description. -/
theorem C4_http_error_dispatch (q m : String) (c : Option String)
    (d : Option ErrData) (s : Nat) (em : String)
    (hs : s ≠ 401 ∧ s ≠ 403 ∧ s ≠ 400 ∧ s ≠ 404 ∧ s ≠ 429) :
    run q m c (.axiosErr (some ⟨some 401, d⟩)) =
      "Error: Authentication failed. Please check if the TWITTER_API_IO_KEY is correct and valid. (Status: 401)" ∧
    run q m c (.axiosErr (some ⟨some 403, d⟩)) =
      "Error: Authentication failed. Please check if the TWITTER_API_IO_KEY is correct and valid. (Status: 403)" ∧
    run q m c (.axiosErr (some ⟨some 400, d⟩)) = badRequestMessage q c (apiMessage d) ∧
    (strTruthy c = true → badRequestMessage q c (apiMessage d) =
      "Error: Bad request. " ++
        ("The search query \"" ++ q ++ "\" or the provided cursor might be invalid.") ++
        " Please check the query syntax and cursor value. (Status: 400, Message: " ++
        apiMessage d ++ ")") ∧
    (strTruthy c = false → badRequestMessage q c (apiMessage d) =
      "Error: Bad request. " ++
        ("The search query \"" ++ q ++ "\" might be invalid or improperly formatted.") ++
        " Please check the query syntax and cursor value. (Status: 400, Message: " ++
        apiMessage d ++ ")") ∧
    run q m c (.axiosErr (some ⟨some 404, d⟩)) =
      "Error: API endpoint not found or unavailable. Please check the API configuration. (Status: 404)" ∧
    run q m c (.axiosErr (some ⟨some 429, d⟩)) =
      "Error: API rate limit exceeded. Please wait and try again later. (Status: 429)" ∧
    run q m c (.axiosErr (some ⟨some s, d⟩)) =
      "Error: An API error occurred. Status: " ++ jsStatusOrNA (some s) ++
        ", Message: " ++ apiMessage d ∧
    run q m c (.axiosErr none) =
      "Error: An API error occurred. Status: N/A, Message: No specific message from API." ∧
    run q m c (.otherErr em) =
      "Error: An unexpected error occurred while searching tweets: " ++ em := by
  obtain ⟨h1, h2, h3, h4, h5⟩ := hs
  refine ⟨?_, ?_, rfl, ?_, ?_, ?_, ?_, ?_, rfl, rfl⟩
  · rw [run_axiosErr]
    simp only [handleAxiosError, Option.some_bind, true_or, or_true, if_true]
    decide
  · rw [run_axiosErr]
    simp only [handleAxiosError, Option.some_bind, true_or, or_true, if_true]
    decide
  · intro h
    simp only [badRequestMessage]
    rw [if_pos h]
  · intro h
    simp only [badRequestMessage]
    rw [if_neg (by simp [h])]
  · rfl
  · rfl
  · rw [run_axiosErr]
    simp only [handleAxiosError, Option.bind]
    rw [if_neg (by simp [h1, h2]), if_neg (by simp [h3]), if_neg (by simp [h4]),
      if_neg (by simp [h5])]

/-- Witness for C4: a 500 response with no body takes the generic API
error template. -/
theorem C4_http_error_dispatch_witness :
    run "q" "Latest" none (.axiosErr (some ⟨some 500, none⟩)) =
      "Error: An API error occurred. Status: " ++ jsStatusOrNA (some 500) ++
        ", Message: " ++ apiMessage none := by
  have h := C4_http_error_dispatch "q" "Latest" none none 500 "x" (by decide)
  exact h.2.2.2.2.2.2.2.1

/-- C3: over the non-empty success path, a rendered report longer than
the 25000-character ceiling is returned as exactly its first 25000
characters followed by the fixed truncation suffix, and a report within
the ceiling is returned unchanged. -/
theorem C3_output_length_cap (q m : String) (c : Option String)
    (tweets : List RawTweet) (hnp : Option Bool) (nc fMessage fMsg : Option String)
    (h : tweets ≠ []) :
    ((renderedReport q m c tweets hnp nc).length > maxTotalOutputLength →
      run q m c (.ok (some ⟨some tweets, hnp, nc, fMessage, fMsg⟩)) =
        jsSubstring (renderedReport q m c tweets hnp nc) maxTotalOutputLength ++
          truncationSuffix) ∧
    ((renderedReport q m c tweets hnp nc).length ≤ maxTotalOutputLength →
      run q m c (.ok (some ⟨some tweets, hnp, nc, fMessage, fMsg⟩)) =
        renderedReport q m c tweets hnp nc) := by
  match tweets, h with
  | t :: ts, _ =>
    have hrun : run q m c (.ok (some ⟨some (t :: ts), hnp, nc, fMessage, fMsg⟩)) =
        capOutput (renderedReport q m c (t :: ts) hnp nc) := rfl
    constructor
    · intro hl
      rw [hrun]
      simp only [capOutput]
      rw [if_pos hl]
    · intro hl
      rw [hrun]
      simp only [capOutput]
      rw [if_neg (by omega)]

/-- Witness for C3: a one-tweet report within the ceiling is returned
unchanged. -/
theorem C3_output_length_cap_witness :
    run "q" "Latest" none
      (.ok (some ⟨some [⟨none, none, none, none, none, none, none, none, none⟩],
        none, none, none, none⟩)) =
      renderedReport "q" "Latest" none
        [⟨none, none, none, none, none, none, none, none, none⟩] none none :=
  (C3_output_length_cap "q" "Latest" none _ none none none none
    (List.cons_ne_nil _ _)).2 (by decide)

lemma badRequestMessage_empty_cursor (q am : String) :
    badRequestMessage q (some "") am = badRequestMessage q none am := rfl

lemma handleAxiosError_empty_cursor (q : String) (r : Option ErrResponse) :
    handleAxiosError q (some "") r = handleAxiosError q none r := by
  simp only [handleAxiosError]
  rw [badRequestMessage_empty_cursor]

lemma handleSuccess_empty_cursor (q m : String) (data : Option ResponseData) :
    handleSuccess q m (some "") data = handleSuccess q m none data := by
  cases data with
  | none => rfl
  | some d =>
    obtain ⟨tw, hnp, nc, fMessage, fMsg⟩ := d
    cases tw with
    | none => rfl
    | some l =>
      cases l with
      | nil => rfl
      | cons t ts => rfl

/-- C10: supplying the cursor as the empty string is observationally
identical to omitting it: the outbound request parameters and the
returned string agree for every query, mode and call outcome. -/
theorem C10_empty_cursor_equals_omitted (q m : String) (o : CallOutcome) :
    run q m (some "") o = run q m none o ∧
    requestParams q m (some "") = requestParams q m none := by
  refine ⟨?_, rfl⟩
  cases o with
  | ok data => exact handleSuccess_empty_cursor q m data
  | axiosErr r => exact handleAxiosError_empty_cursor q r
  | otherErr em => rfl

/-- Counterexample to C2 as stated: with a next page signalled and a
non-empty next cursor, a tweet whose text contains the end-of-results
marker makes the returned string contain both the marker and the exact
next-cursor footer, so the returned string does not have the claimed
exclusivity. -/
theorem C2_footer_counterexample :
    strOccurs "*Note: End of results.*"
      (run "q" "Latest" none (.ok (some markerResponse))) = true ∧
    strOccurs "Use this cursor for the next page: CUR"
      (run "q" "Latest" none (.ok (some markerResponse))) = true := by
  constructor <;> decide

/-- C2 amended: for every successful shape-valid provider response, as
long as the rendered non-empty report does not exceed the output length
ceiling, the returned report ends with the pagination footer, and the
appended footer is exclusive: it is the more-results note embedding the
exact next cursor when has_next_page is truthy and next_cursor is
non-empty, and otherwise the end-of-results note. -/
theorem C2_footer_amended (q m : String) (c : Option String)
    (tweets : List RawTweet) (hnp : Option Bool) (nc fMessage fMsg : Option String) :
    (tweets = [] →
      run q m c (.ok (some ⟨some tweets, hnp, nc, fMessage, fMsg⟩)) =
        emptyPageMessage q c ++ emptyPageNote hnp nc) ∧
    (tweets ≠ [] →
      (renderedReport q m c tweets hnp nc).length ≤ maxTotalOutputLength →
      run q m c (.ok (some ⟨some tweets, hnp, nc, fMessage, fMsg⟩)) =
        (header q m c ++ renderTweets 0 tweets) ++ paginationFooter hnp nc) ∧
    ((boolTruthy hnp && strTruthy nc) = true →
      paginationFooter hnp nc =
        "\n*Note: More results available. Use this cursor for the next page: " ++
          jsOrStr nc "" ++ "*\n" ∧
      emptyPageNote hnp nc =
        "\n*Note: The API indicates more results might exist. Use this cursor for the next page: " ++
          jsOrStr nc "" ++ "*") ∧
    ((boolTruthy hnp && strTruthy nc) = false →
      paginationFooter hnp nc = "\n*Note: End of results.*\n" ∧
      emptyPageNote hnp nc = "\n*Note: End of results.*") := by
  refine ⟨?_, ?_, ?_, ?_⟩
  · intro h
    subst h
    rfl
  · intro hne hlen
    cases tweets with
    | nil => exact absurd rfl hne
    | cons t ts =>
      have hrun : run q m c (.ok (some ⟨some (t :: ts), hnp, nc, fMessage, fMsg⟩)) =
          capOutput (renderedReport q m c (t :: ts) hnp nc) := rfl
      rw [hrun]
      simp only [capOutput]
      rw [if_neg (by omega)]
      rfl
  · intro h
    constructor
    · simp only [paginationFooter]
      rw [if_pos h]
    · simp only [emptyPageNote]
      rw [if_pos h]
  · intro h
    constructor
    · simp only [paginationFooter]
      rw [if_neg (by simp [h])]
    · simp only [emptyPageNote]
      rw [if_neg (by simp [h])]

/-- Witness for the amended C2 at a one-tweet page with a next cursor. -/
theorem C2_footer_amended_witness :
    run "q" "Latest" none
      (.ok (some ⟨some [plainTweet], some true, some "CUR", none, none⟩)) =
      (header "q" "Latest" none ++ renderTweets 0 [plainTweet]) ++
        paginationFooter (some true) (some "CUR") :=
  (C2_footer_amended "q" "Latest" none _ (some true) (some "CUR") none none).2.1
    (List.cons_ne_nil _ _) (by decide)

/-- Counterexample to C9 as stated: a tweet with absent createdAt and url
fields leaks the literal text undefined into the returned report for
both sub-fields. -/
theorem C9_fallback_counterexample :
    strOccurs "**Created:** undefined"
      (run "q" "Latest" none (.ok (some bareResponse))) = true ∧
    strOccurs "**Link:** undefined"
      (run "q" "Latest" none (.ok (some bareResponse))) = true := by
  constructor <;> decide

/-- C9 amended: for every tweet, each optional sub-field has its own
independent rendering in the block: a missing author handle renders as
Unknown User, missing text renders as the empty string, each of the
four engagement counts defaults to 0 when absent, but an absent
createdAt or url sub-field is interpolated without a fallback and
renders as the literal text undefined. -/
theorem C9_fallbacks_amended (i : Nat) (t : RawTweet) :
    tweetBlock i t =
      toString (i + 1) ++ ". **Author:** @" ++ authorName t ++ "\n" ++
      "   **ID:** " ++ interpOpt t.id ++ "\n" ++
      "   **Text:** " ++ tweetText t ++ "\n" ++
      "   **Created:** " ++ interpOpt t.createdAt ++ "\n" ++
      "   **Link:** " ++ interpOpt t.url ++ "\n" ++
      "   **Stats:** Likes: " ++ toString (natOr t.likeCount 0) ++
      ", Retweets: " ++ toString (natOr t.retweetCount 0) ++
      ", Replies: " ++ toString (natOr t.replyCount 0) ++
      ", Views: " ++ toString (natOr t.viewCount 0) ++ "\n\n" ∧
    (t.author.bind RawAuthor.userName = none →
      authorName t = "Unknown User") ∧
    (t.text = none → tweetText t = "") ∧
    (t.likeCount = none → natOr t.likeCount 0 = 0) ∧
    (t.retweetCount = none → natOr t.retweetCount 0 = 0) ∧
    (t.replyCount = none → natOr t.replyCount 0 = 0) ∧
    (t.viewCount = none → natOr t.viewCount 0 = 0) ∧
    (t.createdAt = none → interpOpt t.createdAt = "undefined") ∧
    (t.url = none → interpOpt t.url = "undefined") := by
  refine ⟨rfl, ?_, ?_, ?_, ?_, ?_, ?_, ?_, ?_⟩
  · intro h
    simp [authorName, h, jsOrStr]
  · intro h
    simp only [tweetText, tweetTextContent, h, jsOrStr]
    decide
  · intro h
    simp [natOr, h]
  · intro h
    simp [natOr, h]
  · intro h
    simp [natOr, h]
  · intro h
    simp [natOr, h]
  · intro h
    simp [interpOpt, h]
  · intro h
    simp [interpOpt, h]

/-- Witness for the amended C9 at a concrete tweet whose createdAt, url
and retweet count are absent while its author and like count are
present: the absent fields take their per-field renderings. -/
theorem C9_fallbacks_amended_witness :
    interpOpt bareTweet.createdAt = "undefined" ∧
    interpOpt bareTweet.url = "undefined" ∧
    natOr bareTweet.retweetCount 0 = 0 ∧
    tweetText plainTweet2 = "" :=
  ⟨(C9_fallbacks_amended 0 bareTweet).2.2.2.2.2.2.2.1 rfl,
   (C9_fallbacks_amended 0 bareTweet).2.2.2.2.2.2.2.2 rfl,
   (C9_fallbacks_amended 0 bareTweet).2.2.2.2.1 rfl,
   (C9_fallbacks_amended 0 plainTweet2).2.2.1 rfl⟩

end AdvancedTweetSearch
